import Mathlib

/-!
Verification of the observability-demo services: a shallow embedding in Lean 4
of the core logic of the incident-response orchestrator
(devops-agent: event_processor.py, workflow_engine.py) and of the
natural-language-to-PromQL gateway
(prometheus-mcp-server: query_translator.py, prometheus_client.py),
together with theorems settling the frozen claims C1..C10.

Conventions used throughout:
- Python strings are Lean `String`s; `sub in s` is `pyContains s sub`;
  `s.lower()` is `strLower s` (ASCII, which covers every string the code
  compares).
- Python dicts with string keys are association lists, first binding wins.
- Python floats are modelled as exact rationals `ℚ` (every numeric literal
  the claims mention is exactly representable, and every comparison the
  claims exercise has the same outcome over `ℚ` as over binary floats).
- Fallible Python code returns `Except String`/`Option`; where CPython
  mutates a structure before raising (heapq), the model returns the mutated
  structure alongside the error.
-/

/-! ## String helpers (Python `in`, `str.lower`) -/

/-- `sub.isPrefixOf`-scan over every suffix of `hay`: Python `sub in hay`. -/
def listContainsAux (sub : List Char) : List Char → Bool
  | [] => sub.isEmpty
  | c :: rest => sub.isPrefixOf (c :: rest) || listContainsAux sub rest

/-- Python substring test `sub in hay`. -/
def pyContains (hay sub : String) : Bool :=
  listContainsAux sub.data hay.data

/-- Python `str.lower()` restricted to ASCII (all compared strings are ASCII). -/
def strLower (s : String) : String :=
  String.mk (s.data.map Char.toLower)

/-! ## Event priority (event_processor.py, `Event._determine_priority`) -/

/-- `EventPriority` enum from event_processor.py. -/
inductive EventPriority where
  | CRITICAL
  | HIGH
  | MEDIUM
  | LOW
deriving DecidableEq, Repr

/-- The numeric enum value (`CRITICAL = 1`, … , `LOW = 4`). -/
def EventPriority.value : EventPriority → Nat
  | .CRITICAL => 1
  | .HIGH => 2
  | .MEDIUM => 3
  | .LOW => 4

/-- The parts of an event's `detail` mapping that priority derivation reads:
`detail.get('state', {}).get('value', '')` and `detail.get('alarmName', '')`
(absent keys are modelled by the default values `""`). -/
structure EventDetail where
  state_value : String
  alarmName : String

/-- `Event._determine_priority` from event_processor.py: `ALARM` state plus a
critical keyword in the lowercased alarm name gives CRITICAL, `ALARM` alone
gives HIGH, anything else MEDIUM. -/
def determine_priority (detail : EventDetail) : EventPriority :=
  if detail.state_value = "ALARM" then
    if ["critical", "oom", "node", "down"].any
        (fun keyword => pyContains (strLower detail.alarmName) keyword) then
      EventPriority.CRITICAL
    else
      EventPriority.HIGH
  else
    EventPriority.MEDIUM

/-! ## The intake priority queue (event_processor.py + CPython heapq)

`EventProcessor.process_event` does `await self.event_queue.put((event.priority.value, event))`
on an `asyncio.PriorityQueue`, whose `_put`/`_get` are `heapq.heappush`/`heapq.heappop`
on a Python list (the C `_heapq` implementations, which sift by swapping array
slots).  An entry is modelled as `(rank, tag) : Nat × Nat` where `tag`
identifies the `Event` object (all distinct).  Comparing two entries compares the
ranks first; on equal ranks Python compares the `Event` objects, which define no
ordering, so `<` raises `TypeError` — unless the two tuples are the same object
(same tag), in which case tuple `<` returns `False`.  CPython mutates the heap
list in place and an exception can fire mid-operation, so every heap operation
below returns the (possibly partially sifted) heap together with the outcome. -/

/-- A priority-queue entry `(event.priority.value, event)`. -/
abbrev HeapEntry := Nat × Nat

/-- Python `<` on two `(rank, event)` tuples: rank comparison, then `TypeError`
for distinct un-orderable `Event` objects of equal rank. -/
def entryLt (a b : HeapEntry) : Except String Bool :=
  if a.1 = b.1 then
    if a.2 = b.2 then Except.ok false
    else Except.error "TypeError: '<' not supported between instances of 'Event' and 'Event'"
  else
    Except.ok (decide (a.1 < b.1))

/-- C `_heapq` `siftdown(heap, startpos, pos)`: walk up from `pos`; while
`heap[pos] < heap[parentpos]`, swap the two slots; a failed comparison raises,
leaving the heap as swapped so far.  The first argument is fuel making the
recursion structural; `pos` strictly decreases at each step, so fuel `pos + 1`
(as supplied by `siftdownLoop`) is never exhausted. -/
def siftdownGo (startpos : Nat) : Nat → List HeapEntry → Nat → List HeapEntry × Option String
  | 0, heap, _ => (heap, none)
  | fuel + 1, heap, pos =>
    if startpos < pos then
      let parentpos := (pos - 1) / 2
      let newitem := heap.getD pos (0, 0)
      let parent := heap.getD parentpos (0, 0)
      match entryLt newitem parent with
      | Except.error e => (heap, some e)
      | Except.ok false => (heap, none)
      | Except.ok true =>
        siftdownGo startpos fuel ((heap.set parentpos newitem).set pos parent) parentpos
    else
      (heap, none)

/-- C `_heapq` `siftdown` entry point. -/
def siftdownLoop (heap : List HeapEntry) (startpos pos : Nat) :
    List HeapEntry × Option String :=
  siftdownGo startpos (pos + 1) heap pos

/-- The bubbling loop of C `_heapq` `siftup`: while `pos` has a child
(`pos < endpos / 2`), pick the smaller child (the sibling comparison
`heap[childpos] < heap[childpos+1]` can raise) and swap it with `pos`.
The first explicit argument is fuel making the recursion structural; `pos`
strictly increases below `endpos`, so fuel `endpos + 1` (as supplied by
`siftupLoop`) is never exhausted. -/
def siftupGo (endpos : Nat) : Nat → List HeapEntry → Nat → (List HeapEntry × Nat) × Option String
  | 0, heap, pos => ((heap, pos), none)
  | fuel + 1, heap, pos =>
    if pos < endpos / 2 then
      let childpos := 2 * pos + 1
      match (if childpos + 1 < endpos then
               entryLt (heap.getD childpos (0, 0)) (heap.getD (childpos + 1) (0, 0))
             else Except.ok true) with
      | Except.error e => ((heap, pos), some e)
      | Except.ok cmp =>
        let childpos2 := if childpos + 1 < endpos ∧ cmp = false then childpos + 1 else childpos
        let heap2 := (heap.set childpos2 (heap.getD pos (0, 0))).set pos
          (heap.getD childpos2 (0, 0))
        siftupGo endpos fuel heap2 childpos2
    else
      ((heap, pos), none)

/-- The bubbling loop of C `_heapq` `siftup`, entry point. -/
def siftupLoop (heap : List HeapEntry) (endpos pos : Nat) :
    (List HeapEntry × Nat) × Option String :=
  siftupGo endpos (endpos + 1) heap pos

/-- C `_heapq` `siftup(heap, pos)`: bubble the slot down to the leaf level by
swapping with the smaller child, then `siftdown` back up from where it landed. -/
def siftup (heap : List HeapEntry) (pos : Nat) : List HeapEntry × Option String :=
  match siftupLoop heap heap.length pos with
  | ((h, _), some e) => (h, some e)
  | ((h, p), none) => siftdownLoop h 0 p

/-- `heapq.heappush`: append, then sift down.  The append happens before any
comparison, so even a `TypeError` leaves the item inside the list. -/
def heappush (heap : List HeapEntry) (item : HeapEntry) :
    List HeapEntry × Option String :=
  siftdownLoop (heap ++ [item]) 0 heap.length

/-- `heapq.heappop`: pop the last element; if the heap is still non-empty, take
the root as the return value, move the last element to the root and `_siftup`.
If `_siftup` raises, the root has already been overwritten: the popped entry is
lost and the caller sees only the exception. -/
def heappop (heap : List HeapEntry) : List HeapEntry × Except String HeapEntry :=
  match heap.getLast? with
  | none => ([], Except.error "IndexError: index out of range")
  | some lastelt =>
    let rest := heap.dropLast
    if rest.isEmpty then ([], Except.ok lastelt)
    else
      let returnitem := rest.getD 0 (0, 0)
      match siftup (rest.set 0 lastelt) 0 with
      | (h, none) => (h, Except.ok returnitem)
      | (h, some e) => (h, Except.error e)

/-- `EventProcessor.process_event`: build the event, `put` it on the priority
queue; any exception is caught and logged (`Failed to process event`), so the
caller only learns a `Bool` (no exception escaped).  The heap is mutated either
way. -/
def process_event (heap : List HeapEntry) (rank tag : Nat) :
    List HeapEntry × Bool :=
  match heappush heap (rank, tag) with
  | (h, none) => (h, true)
  | (h, some _) => (h, false)

/-- Submit a list of `(rank, tag)` events through `process_event` in order,
returning the final heap and the per-event no-exception flags. -/
def submitAll (events : List HeapEntry) : List HeapEntry × List Bool :=
  events.foldl
    (fun acc ev =>
      match process_event acc.1 ev.1 ev.2 with
      | (h, ok) => (h, acc.2 ++ [ok]))
    ([], [])

/-- The dispatcher loop `_process_events`: repeatedly `get` from the queue and
hand the event to a handler; an exception from `get` is caught by the loop's
generic handler, logged, and the loop continues — the entry `heappop` had
already removed is handed to nobody.  `drainQueue` returns the entries that
actually reach a handler, in order, running until the queue is empty
(fuel bounds the iterations; it is chosen larger than any trace below). -/
def drainQueue : Nat → List HeapEntry → List HeapEntry
  | 0, _ => []
  | fuel + 1, heap =>
    if heap.isEmpty then []
    else
      match heappop heap with
      | (h, Except.ok e) => e :: drainQueue fuel h
      | (h, Except.error _) => drainQueue fuel h

/-! ## Workflow engine (workflow_engine.py)

Step handlers return flat Python dicts whose values are booleans, numbers,
strings, `None`, or lists of strings; a step-result dict is modelled as an
association list `List (String × Scalar)`.  The handlers call external systems
(kubernetes, prometheus, cloudwatch, xray), so a workflow execution is
parametrised by an oracle `String → List (String × Scalar)` giving the result
dict each step handler produced (every step id of the six workflows has a
handler in `_execute_step`'s table). -/

/-- A scalar Python value as appearing in step-result dicts. -/
inductive Scalar where
  | sBool (b : Bool)
  | sInt (n : Int)
  | sStr (s : String)
  | sStrList (l : List String)
  | sNone
deriving DecidableEq, Repr

/-- Python `str`/`repr` of a scalar. -/
def scalarStr : Scalar → String
  | .sBool true => "True"
  | .sBool false => "False"
  | .sInt n => toString n
  | .sStr s => "'" ++ s ++ "'"
  | .sStrList l => "[" ++ String.intercalate ", " (l.map (fun s => "'" ++ s ++ "'")) ++ "]"
  | .sNone => "None"

/-- Python `str` of a flat dict with string keys. -/
def dictStr (d : List (String × Scalar)) : String :=
  "\x7b" ++ String.intercalate ", " (d.map (fun p => "'" ++ p.1 ++ "': " ++ scalarStr p.2)) ++ "\x7d"

/-- One entry of `context['findings']`:
`{'step': step, 'result': step_result, 'timestamp': ...}`. -/
structure Finding where
  step : String
  result : List (String × Scalar)
  timestamp : String
deriving DecidableEq, Repr

/-- Python `str` of a finding dict (`str(f)` in `_determine_root_cause`). -/
def findingStr (f : Finding) : String :=
  "\x7b'step': '" ++ f.step ++ "', 'result': " ++ dictStr f.result ++
    ", 'timestamp': '" ++ f.timestamp ++ "'\x7d"

/-- Python `dict.get(key, default)` on an association list. -/
def dictGet (d : List (String × Scalar)) (key : String) (dflt : Scalar) : Scalar :=
  match d.find? (fun p => p.1 == key) with
  | some p => p.2
  | none => dflt

/-- Python truthiness of a scalar (`if not step_result.get('continue', True)`). -/
def pyTruthy : Scalar → Bool
  | .sBool b => b
  | .sInt n => n != 0
  | .sStr s => s != ""
  | .sStrList l => !l.isEmpty
  | .sNone => false

/-- `WorkflowEngine._determine_root_cause`: keyed on the workflow name, it scans
the findings with Python substring tests `'oom_kill_detected' in str(f)` etc. —
note these test the rendered text of the finding, not the stored value. -/
def determine_root_cause (workflow_name : String) (findings : List Finding) : String :=
  if workflow_name = "memory_leak_investigation" then
    if findings.any (fun f => pyContains (findingStr f) "oom_kill_detected") then
      "Memory leak causing OOMKill events"
    else if findings.any (fun f => pyContains (findingStr f) "memory_leak_likely") then
      "Increasing memory usage pattern detected"
    else
      "Memory pressure observed"
  else if workflow_name = "high_cpu_investigation" then
    if findings.any (fun f => pyContains (findingStr f) "throttling_detected") then
      "CPU throttling due to insufficient limits"
    else
      "High CPU utilization"
  else if workflow_name = "high_latency_investigation" then
    if findings.any (fun f => pyContains (findingStr f) "resource_constrained") then
      "Latency caused by resource constraints"
    else if findings.any (fun f => pyContains (findingStr f) "bottleneck") then
      "Bottleneck in downstream service"
    else
      "Elevated response times"
  else if workflow_name = "node_pressure_investigation" then
    "Node under resource pressure"
  else if workflow_name = "pod_crash_investigation" then
    "Pod experiencing frequent crashes"
  else
    "Investigation completed"

/-- `WorkflowEngine._generate_recommendations`: a fixed list per workflow name
(the context and root-cause arguments are never read). -/
def generate_recommendations (workflow_name : String) : List String :=
  if workflow_name = "memory_leak_investigation" then
    ["Restart pod to clear memory",
     "Increase memory limit to 512Mi",
     "Review application code for memory leaks",
     "Enable memory profiling"]
  else if workflow_name = "high_cpu_investigation" then
    ["Increase CPU limit to 500m",
     "Enable HPA for automatic scaling",
     "Review code for CPU-intensive operations"]
  else if workflow_name = "high_latency_investigation" then
    ["Scale service horizontally",
     "Optimize slow queries",
     "Enable connection pooling",
     "Review timeout configurations"]
  else if workflow_name = "node_pressure_investigation" then
    ["Cordon node to prevent new scheduling",
     "Drain pods to other nodes",
     "Add new nodes to cluster"]
  else if workflow_name = "pod_crash_investigation" then
    ["Review application logs for errors",
     "Check resource limits",
     "Roll back to previous version if recent deployment"]
  else
    ["Review metrics and logs",
     "Consult runbook documentation"]

/-- The step loop of `execute_workflow`: run each step, append one finding per
executed step, and stop early when a step result has a falsy `continue` key
(`if not step_result.get('continue', True): break`). -/
def runSteps (oracle : String → List (String × Scalar)) (ts : String) :
    List String → List Finding
  | [] => []
  | step :: rest =>
    let step_result := oracle step
    if pyTruthy (dictGet step_result "continue" (Scalar.sBool true)) then
      ⟨step, step_result, ts⟩ :: runSteps oracle ts rest
    else
      [⟨step, step_result, ts⟩]

/-- A workflow definition from `_load_workflows`. -/
structure Workflow where
  name : String
  steps : List String
deriving DecidableEq, Repr

/-- `WorkflowEngine._load_workflows`: the six static workflow definitions. -/
def workflows : List (String × Workflow) :=
  [("memory_leak_investigation",
    ⟨"Memory Leak Investigation",
     ["identify_pod", "collect_memory_metrics", "check_oom_events",
      "analyze_memory_trend", "review_recent_changes", "recommend_remediation"]⟩),
   ("high_cpu_investigation",
    ⟨"High CPU Investigation",
     ["identify_pod", "collect_cpu_metrics", "check_cpu_throttling",
      "analyze_request_patterns", "review_resource_limits", "recommend_remediation"]⟩),
   ("high_latency_investigation",
    ⟨"High Latency Investigation",
     ["identify_service", "collect_latency_metrics", "analyze_traces",
      "check_dependencies", "correlate_with_resources", "recommend_remediation"]⟩),
   ("node_pressure_investigation",
    ⟨"Node Pressure Investigation",
     ["identify_node", "collect_node_metrics", "list_pods_on_node",
      "check_resource_usage", "analyze_evictions", "recommend_remediation"]⟩),
   ("pod_crash_investigation",
    ⟨"Pod Crash Investigation",
     ["identify_pod", "collect_pod_events", "analyze_logs",
      "check_restart_count", "review_resource_limits", "recommend_remediation"]⟩),
   ("generic_investigation",
    ⟨"Generic Investigation",
     ["identify_resource", "collect_metrics", "analyze_patterns", "recommend_actions"]⟩)]

/-- The result dict of `execute_workflow` (the failure shapes carry fewer keys;
absent keys are modelled by `none`/`[]`). -/
structure WorkflowResult where
  success : Bool
  incident_id : String
  workflow : String
  root_cause : Option String
  recommendations : List String
  findings : List Finding
  error : Option String
deriving DecidableEq, Repr

/-- `WorkflowEngine.execute_workflow` for a step oracle that does not raise:
unknown workflow gives the error dict; otherwise all steps run (subject to the
`continue` break), then the root cause and recommendations are attached. -/
def execute_workflow (workflow_name incident_id : String)
    (oracle : String → List (String × Scalar)) (ts : String) : WorkflowResult :=
  match workflows.find? (fun p => p.1 == workflow_name) with
  | none =>
    ⟨false, incident_id, workflow_name, none, [], [],
     some ("Unknown workflow: " ++ workflow_name)⟩
  | some p =>
    let findings := runSteps oracle ts p.2.steps
    let root_cause := determine_root_cause workflow_name findings
    let recommendations := generate_recommendations workflow_name
    ⟨true, incident_id, workflow_name, some root_cause, recommendations, findings, none⟩

/-! ## Query translator (query_translator.py)

Every template pattern in `_load_templates` has the shape
`lit1.*lit2\s+(\S+)` — a literal, a greedy dot-star, a second literal, one or
more whitespace characters and one captured run of non-whitespace.  The
matcher below implements Python `re.search` semantics for exactly this shape:
leftmost starting position wins, the greedy `.*` takes the longest extent that
lets the rest match (and cannot cross a newline), and the capture is the
maximal `\S+` run.  A template record keeps the two literals
(`patPfx`, `patAnchor`) plus a flag telling whether the `(\S+)` group is a
capture group (`true` for every template the code loads; `false` models the
claim C8 "missing capture group" variant, for which `match.lastindex` is
`None`). -/

/-- The opening brace character (written by code point to keep brace
characters out of string literals). -/
def lbrace : Char := Char.ofNat 123

/-- The closing brace character. -/
def rbrace : Char := Char.ofNat 125

/-- Python regex `\s` over ASCII. -/
def pyIsSpace (c : Char) : Bool :=
  c = ' ' || c = '\t' || c = '\n' || c = '\r' || c = Char.ofNat 11 || c = Char.ofNat 12

/-- Match `\s+(\S+)` at the head of `cs`: at least one whitespace character,
then the maximal non-empty run of non-whitespace, which is the capture. -/
def matchWsRun (cs : List Char) : Option (List Char) :=
  match cs with
  | [] => none
  | c :: rest =>
    if pyIsSpace c then
      let afterWs := rest.dropWhile pyIsSpace
      let run := afterWs.takeWhile (fun ch => !pyIsSpace ch)
      if run.isEmpty then none else some run
    else none

/-- Attempt `.*anchor\s+(\S+)` with the dot-star consuming exactly `k`
characters of `rest` (no newline may be consumed by `.`). -/
def anchorCheck (anchor rest : List Char) (k : Nat) : Option (List Char) :=
  if (rest.take k).all (fun c => c ≠ '\n') ∧ anchor.isPrefixOf (rest.drop k) then
    matchWsRun (rest.drop (k + anchor.length))
  else none

/-- Greedy `.*`: try the longest extent first, backtracking downwards. -/
def tryAnchorAt (anchor rest : List Char) : Nat → Option (List Char)
  | 0 => anchorCheck anchor rest 0
  | k + 1 =>
    match anchorCheck anchor rest (k + 1) with
    | some run => some run
    | none => tryAnchorAt anchor rest k

/-- Try to match the whole pattern starting exactly at the head of `s`. -/
def searchAt (pfx anchor s : List Char) : Option (List Char) :=
  if pfx.isPrefixOf s then
    let rest := s.drop pfx.length
    tryAnchorAt anchor rest rest.length
  else none

/-- `re.search`: scan the starting positions left to right. -/
def searchFrom (pfx anchor : List Char) : List Char → Option (List Char)
  | [] => searchAt pfx anchor []
  | c :: rest =>
    match searchAt pfx anchor (c :: rest) with
    | some run => some run
    | none => searchFrom pfx anchor rest

/-- One entry of the translator's template table.  The loaded regex is
`patPfx ++ ".*" ++ patAnchor ++ "\s+(\S+)"`; `patGrouped` records whether the
trailing `\S+` is parenthesised as a capture group. -/
structure Template where
  patPfx : String
  patAnchor : String
  patGrouped : Bool
  promql : String
  description : String
  category : String
deriving DecidableEq, Repr

/-- `re.search(template['pattern'], query_lower)` for a template of the shape
above, returning the text of the `\S+` run when the pattern matches. -/
def reSearch (t : Template) (q : String) : Option String :=
  (searchFrom t.patPfx.data t.patAnchor.data q.data).map String.mk

/-- `QueryTranslator._load_templates`: the ten templates, in order.  The
`promql` strings are the raw Python format strings (brace characters written
as `\x7b`/`\x7d`). -/
def load_templates : List Template :=
  [⟨"memory usage", "pod", true,
    "container_memory_usage_bytes\x7b\x7bpod=\"\x7bpod_name\x7d\"\x7d\x7d",
    "Memory usage for a specific pod", "memory"⟩,
   ⟨"cpu usage", "pod", true,
    "rate(container_cpu_usage_seconds_total\x7b\x7bpod=\"\x7bpod_name\x7d\"\x7d\x7d[5m])",
    "CPU usage for a specific pod", "cpu"⟩,
   ⟨"memory usage", "namespace", true,
    "sum(container_memory_usage_bytes\x7b\x7bnamespace=\"\x7bnamespace\x7d\"\x7d\x7d) by (pod)",
    "Memory usage by pod in namespace", "memory"⟩,
   ⟨"cpu usage", "namespace", true,
    "sum(rate(container_cpu_usage_seconds_total\x7b\x7bnamespace=\"\x7bnamespace\x7d\"\x7d\x7d[5m])) by (pod)",
    "CPU usage by pod in namespace", "cpu"⟩,
   ⟨"request rate", "service", true,
    "rate(http_requests_total\x7b\x7bservice=\"\x7bservice_name\x7d\"\x7d\x7d[5m])",
    "Request rate for a service", "requests"⟩,
   ⟨"error rate", "service", true,
    "rate(http_requests_total\x7b\x7bservice=\"\x7bservice_name\x7d\",status=~\"5..\"\x7d\x7d[5m])",
    "Error rate for a service", "errors"⟩,
   ⟨"latency", "service", true,
    "histogram_quantile(0.99, rate(http_request_duration_seconds_bucket\x7b\x7bservice=\"\x7bservice_name\x7d\"\x7d\x7d[5m]))",
    "P99 latency for a service", "latency"⟩,
   ⟨"resource usage", "node", true,
    "node_memory_MemAvailable_bytes\x7b\x7bnode=\"\x7bnode_name\x7d\"\x7d\x7d / node_memory_MemTotal_bytes\x7b\x7bnode=\"\x7bnode_name\x7d\"\x7d\x7d",
    "Memory availability on a node", "node"⟩,
   ⟨"pod count", "namespace", true,
    "count(kube_pod_info\x7b\x7bnamespace=\"\x7bnamespace\x7d\"\x7d\x7d) by (namespace)",
    "Count of pods in namespace", "pods"⟩,
   ⟨"restart count", "pod", true,
    "kube_pod_container_status_restarts_total\x7b\x7bpod=\"\x7bpod_name\x7d\"\x7d\x7d",
    "Container restart count for pod", "restarts"⟩]

/-- `QueryTranslator._extract_parameters`: four sequential checks, each testing
`'pod'`/`'namespace'`/`'service'`/`'node'` as a substring of the template's raw
promql string and, when present, evaluating `match.group(1) if match.lastindex >= 1 else ''`.
When the regex has no capture group, `match.lastindex` is `None` and the `>=`
comparison raises `TypeError`, which aborts the remaining checks. -/
def extract_parameters (t : Template) (lastindex : Option Nat) (g1 : String) :
    Except String (List (String × String)) :=
  let step := fun (acc : Except String (List (String × String))) (key pname : String) =>
    match acc with
    | Except.error e => Except.error e
    | Except.ok params =>
      if pyContains t.promql key then
        match lastindex with
        | none =>
          Except.error "'>=' not supported between instances of 'NoneType' and 'int'"
        | some n => Except.ok (params ++ [(pname, if 1 ≤ n then g1 else "")])
      else Except.ok params
  step (step (step (step (Except.ok []) "pod" "pod_name")
    "namespace" "namespace") "service" "service_name") "node" "node_name"

/-- Python `str.format(**params)` for the promql template strings: `xx`
doubled braces are unescaped, `\x7bname\x7d` is replaced by the named
parameter (a missing name raises `KeyError`).  `fuel` only bounds the
recursion; it is always called with more fuel than characters. -/
def pyFormatGo (params : List (String × String)) : Nat → List Char → Except String (List Char)
  | 0, _ => Except.error "format: out of fuel"
  | _ + 1, [] => Except.ok []
  | fuel + 1, c :: rest =>
    if c = lbrace then
      match rest with
      | [] => Except.error "ValueError: Single brace encountered in format string"
      | c2 :: rest2 =>
        if c2 = lbrace then
          (pyFormatGo params fuel rest2).map (lbrace :: ·)
        else
          let fieldName := rest.takeWhile (fun ch => ch ≠ rbrace)
          match rest.dropWhile (fun ch => ch ≠ rbrace) with
          | [] => Except.error "ValueError: Single brace encountered in format string"
          | _ :: rest3 =>
            match params.find? (fun p => p.1 == String.mk fieldName) with
            | none => Except.error ("KeyError: '" ++ String.mk fieldName ++ "'")
            | some p => (pyFormatGo params fuel rest3).map (p.2.data ++ ·)
    else if c = rbrace then
      match rest with
      | c2 :: rest2 =>
        if c2 = rbrace then (pyFormatGo params fuel rest2).map (rbrace :: ·)
        else Except.error "ValueError: Single brace encountered in format string"
      | [] => Except.error "ValueError: Single brace encountered in format string"
    else
      (pyFormatGo params fuel rest).map (c :: ·)

/-- `template['promql'].format(**params)`. -/
def pyFormat (tmpl : String) (params : List (String × String)) : Except String String :=
  (pyFormatGo params (tmpl.data.length + 1) tmpl.data).map String.mk

/-- `QueryTranslator._extract_time_range`: fixed phrasing table, default 1h. -/
def extract_time_range (query : String) : String :=
  let query_lower := strLower query
  if pyContains query_lower "last hour" || pyContains query_lower "past hour" then "1h"
  else if pyContains query_lower "last 30 minutes" then "30m"
  else if pyContains query_lower "last 15 minutes" then "15m"
  else if pyContains query_lower "last 5 minutes" then "5m"
  else if pyContains query_lower "last day" || pyContains query_lower "past day" then "1d"
  else if pyContains query_lower "last week" then "7d"
  else "1h"

/-- `QueryTranslator._construct_from_keywords`: keyword fallback. -/
def construct_from_keywords (query : String) : Option String :=
  let query_lower := strLower query
  if pyContains query_lower "memory" && pyContains query_lower "pod" then
    some "container_memory_usage_bytes"
  else if pyContains query_lower "cpu" && pyContains query_lower "pod" then
    some "rate(container_cpu_usage_seconds_total[5m])"
  else if pyContains query_lower "request" then
    some "rate(http_requests_total[5m])"
  else
    none

/-- The dict returned by `QueryTranslator.translate` (keys absent from a given
return shape are `none`). -/
structure TranslateResult where
  success : Bool
  promql : Option String
  template : Option String
  category : Option String
  time_range : Option String
  parameters : Option (List (String × String))
  error : Option String
deriving DecidableEq, Repr

/-- The template-scanning loop of `translate`, over the lowercased query; the
surrounding `try`/`except` turns any exception from parameter extraction or
formatting into `{'success': False, 'error': str(e)}`. -/
def translateGo (query : String) : List Template → TranslateResult
  | [] =>
    match construct_from_keywords query with
    | some promql =>
      ⟨true, some promql, some "keyword-based", some "generic",
       some (extract_time_range query), none, none⟩
    | none =>
      ⟨false, none, none, none, none, none,
       some "Could not translate query. Please provide more specific information."⟩
  | t :: ts =>
    match reSearch t (strLower query) with
    | none => translateGo query ts
    | some run =>
      let lastindex : Option Nat := if t.patGrouped then some 1 else none
      let g1 := if t.patGrouped then run else ""
      match extract_parameters t lastindex g1 with
      | Except.error e => ⟨false, none, none, none, none, none, some e⟩
      | Except.ok params =>
        match pyFormat t.promql params with
        | Except.error e => ⟨false, none, none, none, none, none, some e⟩
        | Except.ok promql =>
          ⟨true, some promql, some t.description, some t.category,
           some (extract_time_range query), some params, none⟩

/-- `QueryTranslator.translate(query, context)` (the `context` argument is
never read), parametrised by the template table `self.templates`. -/
def QueryTranslator.translate (templates : List Template) (query : String) :
    TranslateResult :=
  translateGo query templates

/-! ## Prometheus client result parsing (prometheus_client.py)

Numeric sample values (Python floats produced by `float(v[1])`) are modelled
as exact rationals.  A range-query response item carries a metric label set
and a list of `(timestamp, value)` pairs; `_parse_range_result` is applied to
`result['data']['result']`, modelled as the item list itself. -/

/-- `_calculate_trend`: compare the mean of `values[:n//2]` with the mean of
`values[n//2:]` (`1.1`/`0.9` are the Python literals, exact here). -/
def calculate_trend (values : List ℚ) : String :=
  if values.length < 2 then "unknown"
  else
    let n := values.length
    let first_half := (values.take (n / 2)).sum / ((n / 2 : ℕ) : ℚ)
    let second_half := (values.drop (n / 2)).sum / ((n - n / 2 : ℕ) : ℚ)
    if second_half > first_half * (11 / 10) then "increasing"
    else if second_half < first_half * (9 / 10) then "decreasing"
    else "stable"

/-- One item of a range (matrix) response: `{'metric': …, 'values': [[ts, v], …]}`
with the string sample already parsed by `float`. -/
structure RangeResultItem where
  metric : List (String × String)
  values : List (ℚ × ℚ)
deriving DecidableEq, Repr

/-- One entry of the parsed `values` list (`series_data` in the source). -/
structure SeriesData where
  metric : List (String × String)
  values : List ℚ
  timestamps : List ℚ
deriving DecidableEq, Repr

/-- The dict `_parse_range_result` returns. -/
structure RangeParsed where
  current_value : ℚ
  max_value : ℚ
  min_value : ℚ
  average_value : ℚ
  trend : String
  values : List SeriesData
  series_count : ℕ
deriving DecidableEq, Repr

/-- Python `max(list)` on a non-empty list (the sole call site guards
non-emptiness; the `[]` value is never used). -/
def listMax : List ℚ → ℚ
  | [] => 0
  | x :: xs => xs.foldl max x

/-- Python `min(list)` on a non-empty list. -/
def listMin : List ℚ → ℚ
  | [] => 0
  | x :: xs => xs.foldl min x

/-- `PrometheusClient._parse_range_result` on `result['data']['result']`. -/
def parse_range_result (results : List RangeResultItem) : RangeParsed :=
  if results.isEmpty then
    ⟨0, 0, 0, 0, "unknown", [], 0⟩
  else
    let series_data := results.map
      (fun r => SeriesData.mk r.metric (r.values.map Prod.snd) (r.values.map Prod.fst))
    let all_values := (results.map (fun r => r.values.map Prod.snd)).flatten
    if all_values.isEmpty then
      ⟨0, 0, 0, 0, "unknown", series_data, series_data.length⟩
    else
      ⟨all_values.getLastD 0, listMax all_values, listMin all_values,
       all_values.sum / (all_values.length : ℚ), calculate_trend all_values,
       series_data, series_data.length⟩

/-- Python `int(s)` restricted to an optional sign followed by decimal digits
(the only shapes the claims exercise); everything else raises `ValueError`. -/
def pyInt (cs : List Char) : Except String Int :=
  let digitsVal := fun (ds : List Char) =>
    ds.foldl (fun a c => 10 * a + (c.toNat - 48)) (0 : Nat)
  match cs with
  | [] => Except.error "ValueError: invalid literal for int() with base 10"
  | c :: ds =>
    if c = '-' then
      if !ds.isEmpty && ds.all Char.isDigit then Except.ok (-(digitsVal ds : Int))
      else Except.error "ValueError: invalid literal for int() with base 10"
    else if (c :: ds).all Char.isDigit then Except.ok (digitsVal (c :: ds) : Int)
    else Except.error "ValueError: invalid literal for int() with base 10"

/-- `PrometheusClient._parse_time_range(time_range, end_time)`: take the last
character as the unit and `int` of the rest as the value (both before any unit
check), then subtract the corresponding `timedelta`; an unrecognised unit
falls back to one hour.  Times are modelled in seconds. -/
def parse_time_range (time_range : String) (end_time : Int) : Except String Int :=
  match time_range.data.getLast? with
  | none => Except.error "IndexError: string index out of range"
  | some unit =>
    match pyInt time_range.data.dropLast with
    | Except.error e => Except.error e
    | Except.ok value =>
      if unit = 'h' then Except.ok (end_time - value * 3600)
      else if unit = 'm' then Except.ok (end_time - value * 60)
      else if unit = 'd' then Except.ok (end_time - value * 86400)
      else if unit = 'w' then Except.ok (end_time - value * 604800)
      else Except.ok (end_time - 3600)

/-! ## Concrete fixtures used by the theorems below -/

/-- Environment fixture for a completed `memory_leak_investigation` in which
kubernetes reports zero OOMKill events (so `check_oom_events` returns
`oom_kill_detected: False, oom_count: 0`) and the memory trend is stable (so
`analyze_memory_trend` returns `memory_leak_likely: False`): the result dict
each step handler produces in that environment. -/
def noOomOracle : String → List (String × Scalar) := fun step =>
  if step = "identify_pod" then
    [("success", Scalar.sBool true), ("pod_name", Scalar.sStr "petadoptionshistory-py"),
     ("namespace", Scalar.sStr "default")]
  else if step = "collect_memory_metrics" then
    [("success", Scalar.sBool true), ("memory_usage", Scalar.sStr "N/A"),
     ("trend", Scalar.sStr "stable")]
  else if step = "check_oom_events" then
    [("success", Scalar.sBool true), ("oom_kill_detected", Scalar.sBool false),
     ("oom_count", Scalar.sInt 0)]
  else if step = "analyze_memory_trend" then
    [("success", Scalar.sBool true), ("trend", Scalar.sStr "stable"),
     ("memory_leak_likely", Scalar.sBool false)]
  else if step = "review_recent_changes" then
    [("success", Scalar.sBool true), ("recent_changes", Scalar.sStrList []),
     ("recent_deployment", Scalar.sBool false)]
  else if step = "recommend_remediation" then
    [("success", Scalar.sBool true),
     ("recommendations", Scalar.sStrList (generate_recommendations "memory_leak_investigation"))]
  else []

/-- The first loaded template (memory usage for a pod), standalone, for use in
witnesses. -/
def tplMemPod : Template :=
  ⟨"memory usage", "pod", true,
   "container_memory_usage_bytes\x7b\x7bpod=\"\x7bpod_name\x7d\"\x7d\x7d",
   "Memory usage for a specific pod", "memory"⟩

/-- The first loaded template with its capture group removed
(pattern `memory usage.*pod\s+\S+`): the C8 "missing capture group" template. -/
def noGroupTpl : Template :=
  ⟨"memory usage", "pod", false,
   "container_memory_usage_bytes\x7b\x7bpod=\"\x7bpod_name\x7d\"\x7d\x7d",
   "Memory usage for a specific pod", "memory"⟩

/-- The S4 query from the specification. -/
def memPodQuery : String := "Show me memory usage for pod foo over the last hour"

/-! ## Helper lemmas -/

/-- Each executed step appends exactly one finding, so at most one per step. -/
theorem runSteps_length_le (oracle : String → List (String × Scalar)) (ts : String)
    (steps : List String) : (runSteps oracle ts steps).length ≤ steps.length := by
  induction steps with
  | nil => simp [runSteps]
  | cons s rest ih =>
    simp only [runSteps]
    split
    · simpa using ih
    · simp

/-- The steps recorded in the findings are an initial segment of the workflow's
step list, in execution order. -/
theorem runSteps_steps_isPrefixOf (oracle : String → List (String × Scalar)) (ts : String)
    (steps : List String) :
    ((runSteps oracle ts steps).map Finding.step).isPrefixOf steps = true := by
  induction steps with
  | nil => simp [runSteps]
  | cons s rest ih =>
    simp only [runSteps]
    split
    · simpa [List.isPrefixOf] using ih
    · simp [List.isPrefixOf]

/-- Every branch of `_generate_recommendations` returns a non-empty list. -/
theorem generate_recommendations_ne_nil (workflow_name : String) :
    generate_recommendations workflow_name ≠ [] := by
  unfold generate_recommendations
  split_ifs <;> simp

/-- With no capture group (`lastindex = None`) and a promql that mentions one
of the four parameter names, `_extract_parameters` raises the `TypeError` whose
message `translate`'s handler stringifies. -/
theorem extract_parameters_no_group_error (t : Template) (g1 : String)
    (hmention : (pyContains t.promql "pod" || pyContains t.promql "namespace"
      || pyContains t.promql "service" || pyContains t.promql "node") = true) :
    extract_parameters t none g1 =
      Except.error "'>=' not supported between instances of 'NoneType' and 'int'" := by
  unfold extract_parameters
  cases h1 : pyContains t.promql "pod" <;>
    cases h2 : pyContains t.promql "namespace" <;>
      cases h3 : pyContains t.promql "service" <;>
        cases h4 : pyContains t.promql "node" <;>
          simp_all

/-! ## Claim theorems -/

/-- C1: for a completed `memory_leak_investigation` in an environment with zero
OOMKill events (`check_oom_events` reports `oom_kill_detected: False`) and no
`memory_leak_likely = True` finding, the engine still reports the root cause
"Memory leak causing OOMKill events" instead of the claimed
"Memory pressure observed": `_determine_root_cause` tests
`'oom_kill_detected' in str(f)`, which is true whenever the key is present,
regardless of its value. -/
theorem c1_memory_root_cause_ignores_oom_flag_value :
    dictGet (noOomOracle "check_oom_events") "oom_kill_detected" Scalar.sNone =
      Scalar.sBool false ∧
    dictGet (noOomOracle "analyze_memory_trend") "memory_leak_likely" Scalar.sNone =
      Scalar.sBool false ∧
    (execute_workflow "memory_leak_investigation" "INC-e1" noOomOracle
        "2025-01-01T00:00:00").success = true ∧
    (execute_workflow "memory_leak_investigation" "INC-e1" noOomOracle
        "2025-01-01T00:00:00").root_cause = some "Memory leak causing OOMKill events" ∧
    (execute_workflow "memory_leak_investigation" "INC-e1" noOomOracle
        "2025-01-01T00:00:00").root_cause ≠ some "Memory pressure observed" := by
  decide

/-- C2: submitting a CRITICAL event (rank 1) followed by two MEDIUM events
(rank 3) makes every `process_event` call succeed, yet the first dequeue's
`heappop` raises `TypeError` after overwriting the root: the CRITICAL event is
removed from the queue and reaches no handler — only the two MEDIUM events are
ever dispatched.  (Two events of equal priority alone are still both delivered:
the failing `put` has already appended the entry.) -/
theorem c2_critical_event_silently_dropped :
    EventPriority.value EventPriority.CRITICAL = 1 ∧
    EventPriority.value EventPriority.MEDIUM = 3 ∧
    (submitAll [(1, 0), (3, 1), (3, 2)]).2 = [true, true, true] ∧
    drainQueue 10 (submitAll [(1, 0), (3, 1), (3, 2)]).1 = [(3, 1), (3, 2)] ∧
    ((drainQueue 10 (submitAll [(1, 0), (3, 1), (3, 2)]).1).map Prod.snd).contains 0
      = false ∧
    (submitAll [(3, 0), (3, 1)]).2 = [true, false] ∧
    drainQueue 10 (submitAll [(3, 0), (3, 1)]).1 = [(3, 0), (3, 1)] := by
  decide

/-- C3: three equal-rank (all CRITICAL) events are submitted in order 0, 1, 2;
the queue accepts all three entries, but the first dequeue drops event 0 (the
`heappop` raises after overwriting the root), and the later-submitted events 1
and 2 are the ones dispatched: the first-in event of that rank is never
dequeued at all, refuting FIFO order within equal rank. -/
theorem c3_equal_rank_fifo_broken :
    EventPriority.value EventPriority.CRITICAL = 1 ∧
    (submitAll [(1, 0), (1, 1), (1, 2)]).1 = [(1, 0), (1, 1), (1, 2)] ∧
    drainQueue 10 (submitAll [(1, 0), (1, 1), (1, 2)]).1 = [(1, 1), (1, 2)] ∧
    ((drainQueue 10 (submitAll [(1, 0), (1, 1), (1, 2)]).1).map Prod.snd).contains 0
      = false := by
  decide

/-- C4: the S4 query translates to
`container_memory_usage_bytes{pod="foo"}` with time range `1h` via the first
template, whose capture group fills `pod_name`; and in general the first
template whose regex matches decides the result — the rest of the table is
irrelevant. -/
theorem c4_first_template_match_wins :
    QueryTranslator.translate load_templates memPodQuery =
      ⟨true, some "container_memory_usage_bytes\x7bpod=\"foo\"\x7d",
       some "Memory usage for a specific pod", some "memory", some "1h",
       some [("pod_name", "foo")], none⟩ ∧
    ∀ (q : String) (t : Template) (ts ts' : List Template),
      reSearch t (strLower q) ≠ none →
        QueryTranslator.translate (t :: ts) q = QueryTranslator.translate (t :: ts') q := by
  refine ⟨by decide, ?_⟩
  intro q t ts ts' hmatch
  obtain ⟨run, hrun⟩ := Option.ne_none_iff_exists'.mp hmatch
  simp [QueryTranslator.translate, translateGo, hrun]

/-- C4 witness: the first loaded template matches the S4 query, and dropping
the nine other templates does not change the translation. -/
theorem c4_first_template_match_wins_witness :
    reSearch tplMemPod (strLower memPodQuery) ≠ none ∧
    QueryTranslator.translate (tplMemPod :: load_templates) memPodQuery =
      QueryTranslator.translate (tplMemPod :: []) memPodQuery :=
  ⟨by decide,
   c4_first_template_match_wins.2 memPodQuery tplMemPod load_templates [] (by decide)⟩

/-- C5 counterexample: the constant list `[-10, -10]` (first-half mean
`f = -10`, second-half mean `s = -10`) satisfies the claim's condition
`s < 0.9 · f` (`-10 < -9`), yet `_calculate_trend` answers `"increasing"`
(because `s > 1.1 · f`, i.e. `-10 > -11`, is tested first) — refuting both
"the trend is 'decreasing' when s < 0.9·f" and "a constant list yields
'stable'" as stated. -/
theorem c5_constant_negative_list_not_stable :
    calculate_trend [-10, -10] = "increasing" ∧
    (([(-10 : ℚ), -10].drop ([(-10 : ℚ), -10].length / 2)).sum /
        (([(-10 : ℚ), -10].drop ([(-10 : ℚ), -10].length / 2)).length : ℚ) <
      (9 / 10) * (([(-10 : ℚ), -10].take ([(-10 : ℚ), -10].length / 2)).sum /
        (([(-10 : ℚ), -10].take ([(-10 : ℚ), -10].length / 2)).length : ℚ))) ∧
    ("increasing" : String) ≠ "decreasing" ∧ ("increasing" : String) ≠ "stable" := by
  refine ⟨by norm_num [calculate_trend], by norm_num, by decide, by decide⟩

/-- C5 (amended): fewer than 2 samples give "unknown"; with `f` the mean of the
first half and `s` the mean of the second half, the trend is "increasing" when
`s > 1.1·f`, "decreasing" when `s < 0.9·f` **and not `s > 1.1·f`** (the checks
are ordered), and "stable" when neither holds; a constant list of
**non-negative** value yields "stable"; and the series `[10,10,30,30]` parses
to current 30, min 10, max 30, average 20, trend "increasing". -/
theorem c5_trend_halves_rule :
    (∀ values : List ℚ, values.length < 2 → calculate_trend values = "unknown") ∧
    (∀ values : List ℚ, 2 ≤ values.length →
      ((values.drop (values.length / 2)).sum / ((values.drop (values.length / 2)).length : ℚ) >
          (11 / 10) * ((values.take (values.length / 2)).sum /
            ((values.take (values.length / 2)).length : ℚ)) →
        calculate_trend values = "increasing") ∧
      (¬ ((values.drop (values.length / 2)).sum / ((values.drop (values.length / 2)).length : ℚ) >
          (11 / 10) * ((values.take (values.length / 2)).sum /
            ((values.take (values.length / 2)).length : ℚ))) →
       (values.drop (values.length / 2)).sum / ((values.drop (values.length / 2)).length : ℚ) <
          (9 / 10) * ((values.take (values.length / 2)).sum /
            ((values.take (values.length / 2)).length : ℚ)) →
        calculate_trend values = "decreasing") ∧
      (¬ ((values.drop (values.length / 2)).sum / ((values.drop (values.length / 2)).length : ℚ) >
          (11 / 10) * ((values.take (values.length / 2)).sum /
            ((values.take (values.length / 2)).length : ℚ))) →
       ¬ ((values.drop (values.length / 2)).sum / ((values.drop (values.length / 2)).length : ℚ) <
          (9 / 10) * ((values.take (values.length / 2)).sum /
            ((values.take (values.length / 2)).length : ℚ))) →
        calculate_trend values = "stable")) ∧
    (∀ (c : ℚ) (n : ℕ), 0 ≤ c → 2 ≤ n → calculate_trend (List.replicate n c) = "stable") ∧
    parse_range_result [⟨[], [(1, 10), (2, 10), (3, 30), (4, 30)]⟩] =
      ⟨30, 30, 10, 20, "increasing", [⟨[], [10, 10, 30, 30], [1, 2, 3, 4]⟩], 1⟩ := by
  refine ⟨?_, ?_, ?_, ?_⟩
  · intro values hlen
    unfold calculate_trend
    rw [if_pos hlen]
  · intro values hlen
    have hTk : ((values.take (values.length / 2)).length : ℚ) =
        ((values.length / 2 : ℕ) : ℚ) := by
      rw [List.length_take, min_eq_left (Nat.div_le_self _ _)]
    have hDp : ((values.drop (values.length / 2)).length : ℚ) =
        ((values.length - values.length / 2 : ℕ) : ℚ) := by
      rw [List.length_drop]
    rw [hTk, hDp]
    unfold calculate_trend
    rw [if_neg (by omega)]
    dsimp only
    refine ⟨fun h => ?_, fun h1 h => ?_, fun h1 h2 => ?_⟩
    · rw [if_pos (by rw [mul_comm] at h; exact h)]
    · rw [if_neg (fun hgt => h1 (by rw [mul_comm] at hgt; exact hgt)),
        if_pos (by rw [mul_comm] at h; exact h)]
    · rw [if_neg (fun hgt => h1 (by rw [mul_comm] at hgt; exact hgt)),
        if_neg (fun hlt => h2 (by rw [mul_comm] at hlt; exact hlt))]
  · intro c n hc hn
    unfold calculate_trend
    rw [if_neg (by simp; omega)]
    dsimp only
    rw [List.length_replicate, List.take_replicate, List.drop_replicate,
      List.sum_replicate, List.sum_replicate, min_eq_left (Nat.div_le_self _ _)]
    have e1 : ((n / 2) • c) / ((n / 2 : ℕ) : ℚ) = c := by
      rw [nsmul_eq_mul]
      exact mul_div_cancel_left₀ c (Nat.cast_ne_zero.mpr (by omega))
    have e2 : ((n - n / 2) • c) / ((n - n / 2 : ℕ) : ℚ) = c := by
      rw [nsmul_eq_mul]
      exact mul_div_cancel_left₀ c (Nat.cast_ne_zero.mpr (by omega))
    rw [e1, e2]
    rw [if_neg (by nlinarith), if_neg (by nlinarith)]
  · norm_num [parse_range_result, calculate_trend, listMax, listMin]

/-- C5 witness: the amended rule instantiated at a single sample (unknown), at
the S6 series (increasing) and at a constant non-negative pair (stable). -/
theorem c5_trend_halves_rule_witness :
    calculate_trend [(5 : ℚ)] = "unknown" ∧
    calculate_trend [(10 : ℚ), 10, 30, 30] = "increasing" ∧
    calculate_trend (List.replicate 2 (1 : ℚ)) = "stable" := by
  refine ⟨c5_trend_halves_rule.1 [5] (by norm_num), ?_,
    c5_trend_halves_rule.2.2.1 1 2 (by norm_num) (by norm_num)⟩
  exact (c5_trend_halves_rule.2.1 [10, 10, 30, 30] (by norm_num)).1 (by norm_num)

/-- C6: priority is a pure function of the payload — CRITICAL exactly when the
state is `ALARM` and the lowercased alarm name contains one of `critical`,
`oom`, `node`, `down`; HIGH exactly when `ALARM` without such a keyword;
MEDIUM exactly otherwise; and repeated derivation agrees with itself. -/
theorem c6_priority_pure_rule (detail : EventDetail) :
    (determine_priority detail = EventPriority.CRITICAL ↔
      detail.state_value = "ALARM" ∧
        (pyContains (strLower detail.alarmName) "critical" = true ∨
         pyContains (strLower detail.alarmName) "oom" = true ∨
         pyContains (strLower detail.alarmName) "node" = true ∨
         pyContains (strLower detail.alarmName) "down" = true)) ∧
    (determine_priority detail = EventPriority.HIGH ↔
      detail.state_value = "ALARM" ∧
        ¬ (pyContains (strLower detail.alarmName) "critical" = true ∨
           pyContains (strLower detail.alarmName) "oom" = true ∨
           pyContains (strLower detail.alarmName) "node" = true ∨
           pyContains (strLower detail.alarmName) "down" = true)) ∧
    (determine_priority detail = EventPriority.MEDIUM ↔ detail.state_value ≠ "ALARM") ∧
    determine_priority detail = determine_priority detail := by
  obtain ⟨sv, an⟩ := detail
  by_cases h : sv = "ALARM" <;>
    by_cases h2 : (["critical", "oom", "node", "down"].any
        (fun keyword => pyContains (strLower an) keyword)) = true <;>
      simp_all [determine_priority]

/-- C6 witness: the S1 payload `alarmName = "pod-oom-critical"`,
`state.value = "ALARM"` derives CRITICAL. -/
theorem c6_priority_pure_rule_witness :
    determine_priority ⟨"ALARM", "pod-oom-critical"⟩ = EventPriority.CRITICAL :=
  (c6_priority_pure_rule ⟨"ALARM", "pod-oom-critical"⟩).1.mpr
    ⟨rfl, Or.inl (by decide)⟩

/-- C7: for every workflow in the registry and every environment (step oracle),
a finished execution records at most one finding per workflow step — in fact
the recorded step ids are an initial segment of the workflow's step list, in
execution order — and whenever the root cause is set the recommendations list
is non-empty. -/
theorem c7_findings_bounded_recommendations_nonempty
    (workflow_name incident_id ts : String)
    (oracle : String → List (String × Scalar)) (p : String × Workflow)
    (hp : workflows.find? (fun q => q.1 == workflow_name) = some p) :
    ((execute_workflow workflow_name incident_id oracle ts).findings).length ≤
      p.2.steps.length ∧
    (((execute_workflow workflow_name incident_id oracle ts).findings).map
      Finding.step).isPrefixOf p.2.steps = true ∧
    ((execute_workflow workflow_name incident_id oracle ts).root_cause ≠ none →
      (execute_workflow workflow_name incident_id oracle ts).recommendations ≠ []) := by
  unfold execute_workflow
  rw [hp]
  exact ⟨runSteps_length_le .., runSteps_steps_isPrefixOf .., fun _ =>
    generate_recommendations_ne_nil workflow_name⟩

/-- C7 witness: the generic workflow with a trivial environment. -/
theorem c7_findings_bounded_recommendations_nonempty_witness :
    ((execute_workflow "generic_investigation" "INC-0001" (fun _ => []) "t").findings).length ≤
      (["identify_resource", "collect_metrics", "analyze_patterns",
        "recommend_actions"] : List String).length ∧
    ((execute_workflow "generic_investigation" "INC-0001" (fun _ => []) "t").root_cause ≠ none →
      (execute_workflow "generic_investigation" "INC-0001" (fun _ => []) "t").recommendations ≠ []) := by
  have h := c7_findings_bounded_recommendations_nonempty
    "generic_investigation" "INC-0001" "t" (fun _ => [])
    ("generic_investigation",
     ⟨"Generic Investigation",
      ["identify_resource", "collect_metrics", "analyze_patterns", "recommend_actions"]⟩)
    (by decide)
  exact ⟨h.1, h.2.2⟩

/-- C8: when the first template whose regex matches the query has no capture
group (so `match.lastindex` is `None`) and its promql mentions a parameter
name — as every loaded template does — `translate` returns
`{'success': False, 'error': str(e)}` for the `TypeError` raised inside
`_extract_parameters`, instead of propagating the exception. -/
theorem c8_missing_group_structured_error
    (pre : List Template) (t : Template) (ts : List Template) (q : String)
    (hpre : ∀ t' ∈ pre, reSearch t' (strLower q) = none)
    (hng : t.patGrouped = false)
    (hmention : (pyContains t.promql "pod" || pyContains t.promql "namespace"
      || pyContains t.promql "service" || pyContains t.promql "node") = true)
    (hmatch : reSearch t (strLower q) ≠ none) :
    (QueryTranslator.translate (pre ++ t :: ts) q).success = false ∧
    (QueryTranslator.translate (pre ++ t :: ts) q).error =
      some "'>=' not supported between instances of 'NoneType' and 'int'" := by
  induction pre with
  | nil =>
    obtain ⟨run, hrun⟩ := Option.ne_none_iff_exists'.mp hmatch
    simp [QueryTranslator.translate, translateGo, hrun, hng,
      extract_parameters_no_group_error t "" hmention]
  | cons t' pre' ih =>
    have h' : reSearch t' (strLower q) = none := hpre t' (by simp)
    have := ih (fun x hx => hpre x (by simp [hx]))
    simpa [QueryTranslator.translate, translateGo, h'] using this

/-- C8 witness: the group-less memory template against the S4 query. -/
theorem c8_missing_group_structured_error_witness :
    (QueryTranslator.translate ([] ++ noGroupTpl :: []) memPodQuery).success = false ∧
    (QueryTranslator.translate ([] ++ noGroupTpl :: []) memPodQuery).error =
      some "'>=' not supported between instances of 'NoneType' and 'int'" :=
  c8_missing_group_structured_error [] noGroupTpl [] memPodQuery
    (by simp) rfl (by decide) (by decide)

/-- C9: an empty range-result list parses to all-zero statistics, trend
"unknown", an empty values list and series count 0. -/
theorem c9_empty_result_zeros :
    parse_range_result [] = ⟨0, 0, 0, 0, "unknown", [], 0⟩ := by
  decide

/-- C10: for a time-range string `<digits><unit>` whose unit is none of
`h`/`m`/`d`/`w` (such as `"45s"`), `_parse_time_range` does not fail: the value
parses, every unit branch is skipped, and the window silently falls back to
`end − 1 hour` — exactly what the default `"1h"` produces. -/
theorem c10_bad_unit_defaults_one_hour (ds : List Char) (u : Char) (end_time : Int)
    (hne : ds ≠ []) (hdig : ds.all Char.isDigit = true)
    (hu : u ≠ 'h' ∧ u ≠ 'm' ∧ u ≠ 'd' ∧ u ≠ 'w') :
    parse_time_range (String.mk (ds ++ [u])) end_time = Except.ok (end_time - 3600) ∧
    parse_time_range (String.mk (ds ++ [u])) end_time =
      parse_time_range "1h" end_time := by
  have hint : ∃ v, pyInt ds = Except.ok v := by
    cases ds with
    | nil => exact absurd rfl hne
    | cons c rest =>
      have hc : c.isDigit = true := by
        have h := hdig
        simp [List.all_cons] at h
        exact h.1
      have hcm : c ≠ '-' := by
        intro hcc
        rw [hcc] at hc
        exact absurd hc (by decide)
      unfold pyInt
      dsimp only
      rw [if_neg hcm, if_pos hdig]
      exact ⟨_, rfl⟩
  obtain ⟨v, hv⟩ := hint
  have hmain : parse_time_range (String.mk (ds ++ [u])) end_time =
      Except.ok (end_time - 3600) := by
    unfold parse_time_range
    simp only [List.getLast?_concat, List.dropLast_concat, hv]
    rw [if_neg hu.1, if_neg hu.2.1, if_neg hu.2.2.1, if_neg hu.2.2.2]
  have h1h : parse_time_range "1h" end_time = Except.ok (end_time - 3600) := by
    have hmul : (1 : Int) * 3600 = 3600 := by norm_num
    simp [parse_time_range, pyInt, hmul]
  rw [hmain, h1h]
  exact ⟨rfl, rfl⟩

/-- C10 witness: `"45s"` with the window end at 10000 seconds. -/
theorem c10_bad_unit_defaults_one_hour_witness :
    parse_time_range (String.mk (['4', '5'] ++ ['s'])) 10000 = Except.ok (10000 - 3600) ∧
    String.mk (['4', '5'] ++ ['s']) = "45s" :=
  ⟨(c10_bad_unit_defaults_one_hour ['4', '5'] 's' 10000 (by decide) (by decide)
      ⟨by decide, by decide, by decide, by decide⟩).1,
   rfl⟩
